import Mathlib

/-!
# Verification of the betfair-directory-price-scraper download engine

Shallow embedding of `src/main.py` (the download engine) in Lean 4.

Modelling conventions:

* Times (sleep durations) are exact rationals `ℚ`; the Python floats involved
  (0.1, 1.0, powers of two, small `Retry-After` values) are all exactly
  representable, so no floating-point rounding is lost at these magnitudes.
* The network environment of one request is a function `Nat → AttemptEnv`
  giving, for each attempt index, what the HTTP attempt produces: a response
  (status, optional `Retry-After` header, body, and whether the local file
  write raises `IOError`), a timeout, an `aiohttp.ClientError`, or a generic
  exception.  The `Retry-After` header is modelled post-parsing: `none` means
  the header is absent (Python then uses the default string `'5'`, which
  parses to `5.0`); `some (some q)` means present and `float(...)` yields `q`;
  `some none` means present but unparseable, so `float(...)` raises
  `ValueError` (caught by the generic `except Exception` handler).
* Side effects (sleeps, HTTP GETs, file writes, `print` calls) are recorded in
  an event trace; each `print` in the source is abstracted to a `LogKind`
  constructor carrying the data the f-string interpolates (dates excluded).
* `asyncio`'s scheduler, the semaphore and the `aiohttp.TCPConnector` limit
  are modelled separately as a small-step transition system (see the
  `Concurrency` section below).
-/

/-- `BASE_URL` from `main.py` line 12. -/
def BASE_URL : String := "https://promo.betfair.com/betfairsp/prices/"

/-- One `print` call of `download_file_async`, abstracted to its kind plus the
interpolated data (the date prefix of each message is omitted). -/
inductive LogKind : Type where
  | retryMsg (attempt : Nat) (delay : ℚ)      -- "Retry {attempt} after {delay}s"
  | successMsg (filename : String)            -- "✅ ...: {filename}"
  | rateLimitWaitMsg (wait : ℚ)               -- "Rate limited, waiting {wait}s"
  | rateLimitMaxMsg                           -- "Rate limited (max retries)"
  | httpErrMsg (status : Nat)                 -- "HTTP {status}"
  | timeoutRetryMsg                           -- "Timeout, retrying..."
  | timeoutMaxMsg                             -- "Timeout (max retries)"
  | netRetryMsg                               -- "Network error, retrying..."
  | netErrMsg (msg : String)                  -- "Network error - {e}"
  | fileErrMsg (msg : String)                 -- "File error - {e}"
  | unexpectedErrMsg                          -- "Unexpected error - {e}"
  deriving DecidableEq, Repr

/-- Observable side effects of one task of the download engine. -/
inductive Event : Type where
  | sleep (seconds : ℚ)                       -- `await asyncio.sleep(...)`
  | httpGet (url : String)                    -- `session.get(url)` round trip
  | fileWrite (path : String) (body : List Nat) -- `open(save_path,'wb').write`
  | log (k : LogKind)                         -- a `print(...)` call
  deriving DecidableEq, Repr

/-- What the environment (network + local disk) does on one HTTP attempt.

`response status retryAfter body writeErr`: the GET completes with the given
status; `retryAfter` is the parsed `Retry-After` header (see the module
docstring for the encoding); `body` is `await response.read()`; `writeErr`
is `some msg` when the local file write raises `IOError(msg)` (only reachable
on status 200). `timeout` is `asyncio.TimeoutError`; `netError` is
`aiohttp.ClientError`; `otherError` is any other exception inside the `try`. -/
inductive AttemptEnv : Type where
  | response (status : Nat) (retryAfter : Option (Option ℚ))
      (body : List Nat) (writeErr : Option String)
  | timeout
  | netError (msg : String)
  | otherError (msg : String)
  deriving DecidableEq, Repr

/-- Terminal result of `download_file_async` for one request: which
`return` statement (equivalently, which failure branch) ended the retry loop.
The Python function itself returns only a `bool`; the constructor records the
branch so the spec's failure taxonomy can be checked.  `raisedTypeError` is
the case where the coroutine raises before the `try` block (None filename);
`fellThrough` corresponds to the dead `return False` after the loop. -/
inductive Outcome : Type where
  | success
  | rateLimitedFail
  | httpStatusFail (code : Nat)
  | timeoutFail
  | networkFail (msg : String)
  | fileFail (msg : String)
  | unexpectedFail
  | raisedTypeError
  | fellThrough
  deriving DecidableEq, Repr

/-- The `bool` value `download_file_async` actually returns, or `none` when
the coroutine ends with an uncaught exception (then `asyncio.gather` with
`return_exceptions=True` stores the exception object in the result list). -/
def Outcome.toGatherResult : Outcome → Option Bool
  | .success => some true
  | .raisedTypeError => none
  | _ => some false

/-- The fixed pacing sleep before a first attempt: `await asyncio.sleep(0.1)`
(line 133); written `1 / 10` (the exact value 0.1 denotes here). -/
def pacingDelay : ℚ := 1 / 10

/-- `delay = base_delay * (2 ** (attempt - 1))` (line 128). -/
def backoffDelay (base : ℚ) (attempt : Nat) : ℚ := base * 2 ^ (attempt - 1)

/-- `retry_after = response.headers.get('Retry-After', '5');
wait_time = float(retry_after)` (lines 147-148): `none` (header absent) uses
the default `'5'`, parsing to `5`; a present header parses to its value or
fails (`none` inside), in which case `float` raises `ValueError`. -/
def parseRetryAfter : Option (Option ℚ) → Option ℚ
  | none => some 5
  | some v => v

/-- The events of the start of one loop iteration (lines 127-135): the
backoff print-and-sleep when `attempt > 0` (the `print` precedes the sleep in
the source), the pacing sleep on attempt 0, then the HTTP GET round trip. -/
def preEvents (baseDelay : ℚ) (url : String) (attempt : Nat) : List Event :=
  (if attempt > 0 then
    [.log (.retryMsg attempt (backoffDelay baseDelay attempt)),
     .sleep (backoffDelay baseDelay attempt)]
  else
    [.sleep pacingDelay]) ++ [.httpGet url]

/-- The `for attempt in range(max_retries + 1)` loop of `download_file_async`
(lines 124-178), as structural recursion on the number of loop iterations
still available (`fuel`); the caller passes `fuel = maxRetries + 1 - attempt`.
Returns the event trace of the remaining iterations and the terminal
outcome.  `fuel = 0` is the loop exhausting without a `return`, i.e. the dead
`return False` on line 178. -/
def downloadLoop (maxRetries : Nat) (baseDelay : ℚ) (url : String)
    (savePath : String) (filename : String) (env : Nat → AttemptEnv)
    (attempt : Nat) (fuel : Nat) : List Event × Outcome :=
  match fuel with
  | 0 => ([], .fellThrough)
  | fuel' + 1 =>
    let pre : List Event := preEvents baseDelay url attempt
    match env attempt with
    | .response status retryAfter body writeErr =>
      if status = 200 then
        -- lines 136-144
        match writeErr with
        | some msg => (pre ++ [.log (.fileErrMsg msg)], .fileFail msg)
        | none =>
          (pre ++ [.fileWrite savePath body, .log (.successMsg filename)],
           .success)
      else if status = 429 then
        -- lines 145-154
        if attempt < maxRetries then
          match parseRetryAfter retryAfter with
          | some wait =>
            let rest := downloadLoop maxRetries baseDelay url savePath
              filename env (attempt + 1) fuel'
            (pre ++ [.log (.rateLimitWaitMsg wait), .sleep wait] ++ rest.1,
             rest.2)
          | none =>
            -- `float(retry_after)` raises ValueError, caught at line 174
            (pre ++ [.log .unexpectedErrMsg], .unexpectedFail)
        else
          (pre ++ [.log .rateLimitMaxMsg], .rateLimitedFail)
      else
        -- lines 155-157
        (pre ++ [.log (.httpErrMsg status)], .httpStatusFail status)
    | .timeout =>
      -- lines 159-164
      if attempt < maxRetries then
        let rest := downloadLoop maxRetries baseDelay url savePath filename
          env (attempt + 1) fuel'
        (pre ++ [.log .timeoutRetryMsg] ++ rest.1, rest.2)
      else
        (pre ++ [.log .timeoutMaxMsg], .timeoutFail)
    | .netError msg =>
      -- lines 165-170
      if attempt < maxRetries then
        let rest := downloadLoop maxRetries baseDelay url savePath filename
          env (attempt + 1) fuel'
        (pre ++ [.log .netRetryMsg] ++ rest.1, rest.2)
      else
        (pre ++ [.log (.netErrMsg msg)], .networkFail msg)
    | .otherError _ =>
      -- lines 174-176
      (pre ++ [.log .unexpectedErrMsg], .unexpectedFail)

/-- `download_file_async` (lines 114-178) for one request, given the attempt
environment.  A `none` filename reproduces `Path(save_dir) / None` raising
`TypeError` before the `try` block (line 117): no event occurs and the
exception escapes the coroutine.  The semaphore acquisition (line 116) is
modelled separately in the `Concurrency` section.  `max_retries = 3` and
`base_delay = 1.0` are local constants of the source function
(lines 121-122). -/
def download_file_async (filename : Option String) (save_dir : String)
    (env : Nat → AttemptEnv) : List Event × Outcome :=
  match filename with
  | none => ([], .raisedTypeError)
  | some fn =>
    downloadLoop 3 1 (BASE_URL ++ fn) (save_dir ++ "/" ++ fn) fn env 0 (3 + 1)

/-- Aggregate result of `download_all_files` (lines 93-112): the per-task
gather results (in input order, one per request, exceptions captured as
`none` thanks to `return_exceptions=True`), the per-task event traces, and
the summary counters computed on lines 107-108. -/
structure RunResult where
  results : List (Option Bool)
  perTaskEvents : List (List Event)
  successful : Nat
  failed : Nat
  deriving DecidableEq, Repr

/-- `download_all_files` (lines 93-112): one task per `(filename, date)` pair,
`results = await asyncio.gather(*tasks, return_exceptions=True)`,
`successful = sum(1 for r in results if r is True)`,
`failed = len(results) - successful`.  `env i` is the attempt environment of
the `i`-th request. -/
def download_all_files (urls : List (Option String × ℤ)) (save_dir : String)
    (env : Nat → Nat → AttemptEnv) : RunResult :=
  let tasks := urls.enum.map
    (fun p => download_file_async p.2.1 save_dir (env p.1))
  let results := tasks.map (fun t => t.2.toGatherResult)
  let successful := results.countP (fun r => r = some true)
  { results := results
    perTaskEvents := tasks.map Prod.fst
    successful := successful
    failed := results.length - successful }

/-- `date.strftime("%d%m%Y")` (line 74), abstracted: the claims under check
never inspect the text of a filename, only whether one is produced, so the
calendar day (as a day ordinal `ℤ`) is rendered by `toString`; like
`%d%m%Y` on the program's supported date range, this is injective. -/
def dateStr (date : ℤ) : String := toString date

/-- `get_filename` (lines 72-91): the URL suffix for one day, `none` when the
combination is invalid (in the source this happens for horse racing with no
country; every fall-through `return None` is kept). -/
def get_filename (race_type market : String) (date : ℤ)
    (country : Option String) : Option String :=
  let date_str := dateStr date
  if race_type = "g" then
    if market = "w" then
      some ("dwbfgreyhoundwin" ++ date_str ++ ".csv")
    else if market = "p" then
      some ("dwbfgreyhoundplace" ++ date_str ++ ".csv")
    else none
  else if race_type = "h" then
    match country with
    | none => none
    | some c =>
      if market = "p" then
        if c = "fr" then
          some ("dwbfpricesfrplaced" ++ date_str ++ ".csv")
        else
          some ("dwbfprices" ++ c ++ "place" ++ date_str ++ ".csv")
      else if market = "w" then
        some ("dwbfprices" ++ c ++ "win" ++ date_str ++ ".csv")
      else none
  else none

/-- `generate_all_filenames` (lines 60-70): walk `current_date` from
`start_date` to `end_date` inclusive in one-day steps, pairing each day's
filename with the day.  Dates are day ordinals `ℤ`; `timedelta(days=1)` is
`+ 1`. -/
def generate_all_filenames (country : Option String) (race_type market : String)
    (start_date end_date : ℤ) : List (Option String × ℤ) :=
  if h : start_date ≤ end_date then
    (get_filename race_type market start_date country, start_date) ::
      generate_all_filenames country race_type market (start_date + 1) end_date
  else
    []
termination_by (end_date + 1 - start_date).toNat
decreasing_by
  omega

/-! ## Observations over event traces -/

/-- Is this event an HTTP GET (one attempt)? -/
def isGet : Event → Bool
  | .httpGet _ => true
  | _ => false

/-- Is this event a `print` call? -/
def isLog : Event → Bool
  | .log _ => true
  | _ => false

/-- Is this event a file write? -/
def isWrite : Event → Bool
  | .fileWrite _ _ => true
  | _ => false

/-- The sleep durations occurring in a trace, in order. -/
def sleepList : List Event → List ℚ
  | [] => []
  | .sleep t :: rest => t :: sleepList rest
  | _ :: rest => sleepList rest

/-- Total time slept over a trace. -/
def totalSleep (evs : List Event) : ℚ := (sleepList evs).sum

/-- The part of a trace strictly after its first HTTP GET. -/
def afterFirstGet : List Event → List Event
  | [] => []
  | .httpGet _ :: rest => rest
  | _ :: rest => afterFirstGet rest

/-- The events between the first HTTP GET of a trace and the next one. -/
def interAttemptGap (evs : List Event) : List Event :=
  (afterFirstGet evs).takeWhile (fun e => !isGet e)

/-- The total time slept between the first attempt's GET and the second
attempt's GET. -/
def delayBetweenFirstTwoGets (evs : List Event) : ℚ :=
  totalSleep (interAttemptGap evs)

/-! ## Concurrency model

`download_all_files` creates one `asyncio` task per request; each task first
awaits `asyncio.Semaphore(2)` (line 99 / line 116), whose scope encloses the
pacing sleep, every attempt and the terminal `return`; HTTP connections are
drawn from the session's `aiohttp.TCPConnector(limit=3)` (line 95), one at a
time per task (the `async with session.get(...)` block).  The cooperative
scheduler is modelled as a small-step transition system over the phase of
each task. -/

/-- The phase of one task: not yet admitted by the semaphore; admitted and in
the pacing sleep; past the pacing delay inside the retry loop without /
with an open connection; or resolved (outcome produced, semaphore
released). -/
inductive Phase : Type where
  | notStarted
  | pacing
  | activeIdle
  | activeConn
  | resolved
  deriving DecidableEq, Repr

/-- Does a task in this phase hold the download semaphore?  The
`async with semaphore:` block spans from before the pacing sleep to the
`return`. -/
def holdsSem : Phase → Bool
  | .pacing => true
  | .activeIdle => true
  | .activeConn => true
  | _ => false

/-- Is a task in this phase past the pacing delay and before outcome
resolution (actively inside its retry loop)? -/
def isActive : Phase → Bool
  | .activeIdle => true
  | .activeConn => true
  | _ => false

/-- Does a task in this phase hold an open connection to the remote host? -/
def hasConn : Phase → Bool
  | .activeConn => true
  | _ => false

/-- How many of the `n` tasks satisfy the phase predicate `p`. -/
def phaseCount (n : Nat) (p : Phase → Bool) (s : Fin n → Phase) : Nat :=
  ∑ i : Fin n, if p (s i) then 1 else 0

/-- One scheduler step of the engine run, with `maxDl` the semaphore bound
(`asyncio.Semaphore(maxDl)`) and `maxConn` the connector bound
(`aiohttp.TCPConnector(limit=maxConn)`).  Semaphore admission is the
`asyncio.Semaphore` acquire of line 116 (only when fewer than `maxDl`
holders).  The connection gate is *modelled from the spec*: connection-pool
admission happens inside `aiohttp`, not in this repository; the spec states
`maxConcurrentConnections` "caps total open connections", and each task
opens at most one connection at a time (`async with session.get(...)`). -/
inductive EngineStep (n maxDl maxConn : Nat) :
    (Fin n → Phase) → (Fin n → Phase) → Prop where
  | acquireSem (s : Fin n → Phase) (i : Fin n) :
      s i = .notStarted → phaseCount n holdsSem s < maxDl →
      EngineStep n maxDl maxConn s (Function.update s i .pacing)
  | finishPacing (s : Fin n → Phase) (i : Fin n) :
      s i = .pacing →
      EngineStep n maxDl maxConn s (Function.update s i .activeIdle)
  | openConn (s : Fin n → Phase) (i : Fin n) :
      s i = .activeIdle → phaseCount n hasConn s < maxConn →
      EngineStep n maxDl maxConn s (Function.update s i .activeConn)
  | closeConn (s : Fin n → Phase) (i : Fin n) :
      s i = .activeConn →
      EngineStep n maxDl maxConn s (Function.update s i .activeIdle)
  | resolve (s : Fin n → Phase) (i : Fin n) :
      s i = .activeIdle →
      EngineStep n maxDl maxConn s (Function.update s i .resolved)

/-- The states an engine run over `n` requests can reach, starting from all
tasks created but none admitted, with the source's bounds
`asyncio.Semaphore(2)` and `aiohttp.TCPConnector(limit=3)`. -/
def engineReachable (n : Nat) (s : Fin n → Phase) : Prop :=
  Relation.ReflTransGen (EngineStep n 2 3) (fun _ => .notStarted) s

/-! ## Concrete scenario environments -/

/-- Environment of claim C2's scenario: attempt 1 is HTTP 429 with
`Retry-After: 2`, attempt 2 is HTTP 200. -/
def envRetryAfter2 : Nat → AttemptEnv
  | 0 => .response 429 (some (some 2)) [] none
  | _ => .response 200 none [7, 8] none

/-! ## Helper lemmas -/

theorem phaseCount_update (n : Nat) (p : Phase → Bool) (s : Fin n → Phase)
    (i : Fin n) (a : Phase) :
    phaseCount n p (Function.update s i a) + (if p (s i) then 1 else 0)
      = phaseCount n p s + (if p a then 1 else 0) := by
  classical
  have key : (fun j => if p (Function.update s i a j) then (1 : ℕ) else 0)
      = Function.update (fun j => if p (s j) then (1 : ℕ) else 0) i
          (if p a then 1 else 0) := by
    funext j
    by_cases hj : j = i
    · subst hj; simp
    · simp [Function.update_apply, hj]
  unfold phaseCount
  rw [show (∑ j : Fin n, if p (Function.update s i a j) then (1 : ℕ) else 0)
      = ∑ j : Fin n, Function.update (fun j => if p (s j) then (1 : ℕ) else 0) i
          (if p a then 1 else 0) j from by rw [key]]
  rw [Finset.sum_update_of_mem (Finset.mem_univ i)]
  rw [← Finset.add_sum_erase Finset.univ _ (Finset.mem_univ i)]
  simp only [Finset.erase_eq]
  omega

theorem phaseCount_mono (n : Nat) (p q : Phase → Bool)
    (hpq : ∀ x, p x = true → q x = true) (s : Fin n → Phase) :
    phaseCount n p s ≤ phaseCount n q s := by
  unfold phaseCount
  refine Finset.sum_le_sum (fun i _ => ?_)
  by_cases h : p (s i)
  · simp [h, hpq _ h]
  · simp [h]

theorem phaseCount_init (n : Nat) (p : Phase → Bool) (h : p .notStarted = false) :
    phaseCount n p (fun _ => Phase.notStarted) = 0 := by
  unfold phaseCount
  simp [h]

theorem engineStep_semCount {n maxConn : Nat} {s t : Fin n → Phase}
    (h : EngineStep n 2 maxConn s t) (hs : phaseCount n holdsSem s ≤ 2) :
    phaseCount n holdsSem t ≤ 2 := by
  cases h with
  | acquireSem i hi hcnt =>
    have hupd := phaseCount_update n holdsSem s i .pacing
    simp [holdsSem, hi] at hupd
    omega
  | finishPacing i hi =>
    have hupd := phaseCount_update n holdsSem s i .activeIdle
    simp [holdsSem, hi] at hupd
    omega
  | openConn i hi hcnt =>
    have hupd := phaseCount_update n holdsSem s i .activeConn
    simp [holdsSem, hi] at hupd
    omega
  | closeConn i hi =>
    have hupd := phaseCount_update n holdsSem s i .activeIdle
    simp [holdsSem, hi] at hupd
    omega
  | resolve i hi =>
    have hupd := phaseCount_update n holdsSem s i .resolved
    simp [holdsSem, hi] at hupd
    omega

theorem engineReachable_semCount {n : Nat} {s : Fin n → Phase}
    (h : engineReachable n s) : phaseCount n holdsSem s ≤ 2 := by
  induction h with
  | refl => rw [phaseCount_init n holdsSem rfl]; omega
  | tail hsteps hstep ih => exact engineStep_semCount hstep ih

theorem gaf_aux (c : Option String) (r m : String) (e : ℤ) :
    ∀ (n : Nat) (s : ℤ), (e + 1 - s).toNat = n →
      generate_all_filenames c r m s e
        = (List.range n).map
            (fun (k : ℕ) => (get_filename r m (s + (k : ℤ)) c, s + (k : ℤ))) := by
  intro n
  induction n with
  | zero =>
    intro s hn
    rw [generate_all_filenames]
    have hse : ¬ s ≤ e := by omega
    rw [dif_neg hse]
    simp
  | succ n ih =>
    intro s hn
    rw [generate_all_filenames]
    have hse : s ≤ e := by omega
    have h1 : (e + 1 - (s + 1)).toNat = n := by omega
    rw [dif_pos hse, ih (s + 1) h1, List.range_succ_eq_map]
    simp only [List.map_cons, List.map_map, Nat.cast_zero, add_zero]
    congr 1
    apply List.map_congr_left
    intro k _
    have harg : s + 1 + (k : ℤ) = s + ((k : ℤ) + 1) := by ring
    simp [Function.comp, Nat.cast_succ, harg]

/-! ## Claim theorems -/

/-- C1: every run of `download_all_files` over `N` requests produces exactly
`N` per-request results (one per input request), and the reported summary
reconciles: `successful + failed = N`, where `successful` counts results
equal to `True` and `failed` is every other result, captured exceptions
included. -/
theorem C1_summary_reconciles (urls : List (Option String × ℤ))
    (save_dir : String) (env : Nat → Nat → AttemptEnv) :
    (download_all_files urls save_dir env).results.length = urls.length ∧
    (download_all_files urls save_dir env).successful
      + (download_all_files urls save_dir env).failed = urls.length := by
  unfold download_all_files
  simp only []
  have hlen : (((urls.enum.map
      (fun p => download_file_async p.2.1 save_dir (env p.1))).map
        (fun t => t.2.toGatherResult)).length) = urls.length := by
    simp [List.enum_length]
  refine ⟨hlen, ?_⟩
  have hle := List.countP_le_length
    (p := fun r => decide (r = some true))
    (l := (urls.enum.map
      (fun p => download_file_async p.2.1 save_dir (env p.1))).map
        (fun t => t.2.toGatherResult))
  omega

/-- C2 counterexample: in the claim's scenario (HTTP 429 with
`Retry-After: 2` on attempt 1, HTTP 200 on attempt 2) the engine does wait
the 2 seconds from the header, but the `continue` re-enters the loop top
where the exponential-backoff branch adds a further 1-second sleep, so the
delay between the two attempts is 3 seconds, not approximately 2, and a
backoff sleep is present — contradicting "no exponential-backoff delay
added". -/
theorem C2_backoff_added_counterexample :
    (download_file_async (some "f.csv") "d" envRetryAfter2).2 = Outcome.success ∧
    delayBetweenFirstTwoGets
        (download_file_async (some "f.csv") "d" envRetryAfter2).1 = 3 ∧
    ¬ delayBetweenFirstTwoGets
        (download_file_async (some "f.csv") "d" envRetryAfter2).1 = 2 ∧
    Event.sleep 1 ∈ interAttemptGap
        (download_file_async (some "f.csv") "d" envRetryAfter2).1 := by
  norm_num [download_file_async, downloadLoop, envRetryAfter2, preEvents,
    backoffDelay, pacingDelay, parseRetryAfter, delayBetweenFirstTwoGets,
    interAttemptGap, afterFirstGet, totalSleep, sleepList, isGet]

/-- C2 (amended): for a request whose first attempt returns HTTP 429 with
`Retry-After: 2` and whose second attempt returns HTTP 200,
`download_file_async` returns Success, and the delay between the two
attempts is the 2-second server-specified wait plus the 1-second
exponential-backoff delay of the retried attempt, 3 seconds in total. -/
theorem C2_retry_after_plus_backoff :
    download_file_async (some "f.csv") "d" envRetryAfter2
      = ([.sleep pacingDelay, .httpGet (BASE_URL ++ "f.csv"),
          .log (.rateLimitWaitMsg 2), .sleep 2,
          .log (.retryMsg 1 1), .sleep 1,
          .httpGet (BASE_URL ++ "f.csv"),
          .fileWrite ("d" ++ "/" ++ "f.csv") [7, 8], .log (.successMsg "f.csv")],
         .success) ∧
    delayBetweenFirstTwoGets
        (download_file_async (some "f.csv") "d" envRetryAfter2).1 = 2 + 1 := by
  norm_num [download_file_async, downloadLoop, envRetryAfter2, preEvents,
    backoffDelay, pacingDelay, parseRetryAfter, delayBetweenFirstTwoGets,
    interAttemptGap, afterFirstGet, totalSleep, sleepList, isGet]

/-- C3 counterexample: a first attempt answered HTTP 429 with a
`Retry-After` header that is present but unparseable, with all retry
attempts remaining, does not sleep the claimed 5-second default and does
not retry: `float(retry_after)` raises `ValueError`, the generic
`except Exception` handler returns immediately, a single GET is issued,
and the emitted failure is not the rate-limited one. -/
theorem C3_unparseable_header_counterexample :
    download_file_async (some "f.csv") "d"
        (fun _ => .response 429 (some none) [] none)
      = ([.sleep pacingDelay, .httpGet (BASE_URL ++ "f.csv"),
          .log .unexpectedErrMsg], .unexpectedFail) ∧
    (download_file_async (some "f.csv") "d"
        (fun _ => .response 429 (some none) [] none)).1.countP isGet = 1 ∧
    Event.sleep 5 ∉ (download_file_async (some "f.csv") "d"
        (fun _ => .response 429 (some none) [] none)).1 ∧
    (download_file_async (some "f.csv") "d"
        (fun _ => .response 429 (some none) [] none)).2
      ≠ Outcome.rateLimitedFail := by
  norm_num [download_file_async, downloadLoop, preEvents, backoffDelay,
    pacingDelay, parseRetryAfter, isGet, List.countP_cons]
  refine ⟨⟨by simp, by simp⟩, by simp⟩

/-- C3 (amended): on an HTTP 429 attempt with retries remaining, if the
`Retry-After` header parses to `w` seconds (the absent header uses the
default `'5'`, parsing to 5), the engine sleeps `w` seconds and then
retries (the retried attempt additionally waits the exponential-backoff
delay at the top of the loop); if the header is present but unparseable,
the `ValueError` from `float` is caught by the generic exception handler
and the request fails immediately with no retry; only when attempts are
exhausted is the rate-limited failure emitted. -/
theorem C3_rate_limit_retry_behaviour (mr : Nat) (bd : ℚ) (url sp fn : String)
    (env : Nat → AttemptEnv) (a f : Nat) (hdr : Option (Option ℚ))
    (body : List Nat) (we : Option String)
    (henv : env a = .response 429 hdr body we) :
    (a < mr → ∀ w, parseRetryAfter hdr = some w →
      downloadLoop mr bd url sp fn env a (f + 1)
        = (preEvents bd url a
            ++ [.log (.rateLimitWaitMsg w), .sleep w]
            ++ (downloadLoop mr bd url sp fn env (a + 1) f).1,
           (downloadLoop mr bd url sp fn env (a + 1) f).2)) ∧
    (hdr = none → parseRetryAfter hdr = some 5) ∧
    (a < mr → hdr = some none →
      downloadLoop mr bd url sp fn env a (f + 1)
        = (preEvents bd url a ++ [.log .unexpectedErrMsg], .unexpectedFail)) ∧
    (¬ a < mr →
      downloadLoop mr bd url sp fn env a (f + 1)
        = (preEvents bd url a ++ [.log .rateLimitMaxMsg], .rateLimitedFail)) := by
  refine ⟨?_, ?_, ?_, ?_⟩
  · intro hlt w hw
    rw [downloadLoop, henv]
    simp [hlt, hw]
  · intro h
    subst h
    rfl
  · intro hlt h
    subst h
    rw [downloadLoop, henv]
    simp [hlt, parseRetryAfter]
  · intro hge
    rw [downloadLoop, henv]
    simp [hge]

theorem C3_rate_limit_retry_behaviour_witness :
    downloadLoop 3 1 "u" "p" "f"
        (fun _ => AttemptEnv.response 429 none [] none) 0 (3 + 1)
      = (preEvents 1 "u" 0 ++ [.log (.rateLimitWaitMsg 5), .sleep 5]
          ++ (downloadLoop 3 1 "u" "p" "f"
              (fun _ => AttemptEnv.response 429 none [] none) (0 + 1) 3).1,
         (downloadLoop 3 1 "u" "p" "f"
            (fun _ => AttemptEnv.response 429 none [] none) (0 + 1) 3).2) :=
  (C3_rate_limit_retry_behaviour 3 1 "u" "p" "f"
    (fun _ => AttemptEnv.response 429 none [] none) 0 3 none [] none rfl).1
    (by norm_num) 5 rfl

/-- C4: an attempt whose HTTP response status is neither 200 nor 429 makes
the engine emit the `HttpStatus(code)` failure immediately: the loop
iteration ends the whole request with no recursion, so no further attempts
and no retry delays occur for it. -/
theorem C4_non200_non429_immediate_failure (mr : Nat) (bd : ℚ)
    (url sp fn : String) (env : Nat → AttemptEnv) (a f : Nat) (status : Nat)
    (hdr : Option (Option ℚ)) (body : List Nat) (we : Option String)
    (henv : env a = .response status hdr body we)
    (h200 : status ≠ 200) (h429 : status ≠ 429) :
    downloadLoop mr bd url sp fn env a (f + 1)
      = (preEvents bd url a ++ [.log (.httpErrMsg status)],
         .httpStatusFail status) := by
  rw [downloadLoop, henv]
  simp [h200, h429]

theorem C4_non200_non429_immediate_failure_witness :
    downloadLoop 3 1 "u" "p" "f"
        (fun _ => AttemptEnv.response 500 none [] none) 0 (3 + 1)
      = (preEvents 1 "u" 0 ++ [.log (.httpErrMsg 500)], .httpStatusFail 500) :=
  C4_non200_non429_immediate_failure 3 1 "u" "p" "f"
    (fun _ => AttemptEnv.response 500 none [] none) 0 3 500 none [] none rfl
    (by norm_num) (by norm_num)

/-- C5: a request that times out on every attempt under the source's
constants (`max_retries = 3`, `base_delay = 1.0`) makes exactly 4 HTTP
attempts, returns the timeout failure, and waits 1 s, 2 s and 4 s
respectively before attempts 2, 3 and 4 (plus the initial 0.1 s pacing
sleep before attempt 1). -/
theorem C5_timeout_exhaustion_trace (fn dir : String) (env : Nat → AttemptEnv)
    (h : ∀ a, env a = .timeout) :
    download_file_async (some fn) dir env
      = ([.sleep pacingDelay, .httpGet (BASE_URL ++ fn), .log .timeoutRetryMsg,
          .log (.retryMsg 1 1), .sleep 1, .httpGet (BASE_URL ++ fn),
          .log .timeoutRetryMsg,
          .log (.retryMsg 2 2), .sleep 2, .httpGet (BASE_URL ++ fn),
          .log .timeoutRetryMsg,
          .log (.retryMsg 3 4), .sleep 4, .httpGet (BASE_URL ++ fn),
          .log .timeoutMaxMsg],
         .timeoutFail) := by
  rw [download_file_async]
  norm_num [downloadLoop, h, preEvents, backoffDelay, pacingDelay]

theorem C5_timeout_exhaustion_trace_witness :
    download_file_async (some "f.csv") "d" (fun _ => AttemptEnv.timeout)
      = ([.sleep pacingDelay, .httpGet (BASE_URL ++ "f.csv"),
          .log .timeoutRetryMsg,
          .log (.retryMsg 1 1), .sleep 1, .httpGet (BASE_URL ++ "f.csv"),
          .log .timeoutRetryMsg,
          .log (.retryMsg 2 2), .sleep 2, .httpGet (BASE_URL ++ "f.csv"),
          .log .timeoutRetryMsg,
          .log (.retryMsg 3 4), .sleep 4, .httpGet (BASE_URL ++ "f.csv"),
          .log .timeoutMaxMsg],
         .timeoutFail) :=
  C5_timeout_exhaustion_trace "f.csv" "d" (fun _ => AttemptEnv.timeout)
    (fun _ => rfl)

/-- C6: a local file-write error (`IOError`) during any attempt ends the
request immediately with the file-system failure outcome: the iteration
returns with no recursion, so no further retry attempts are performed. -/
theorem C6_io_error_immediate_failure (mr : Nat) (bd : ℚ) (url sp fn : String)
    (env : Nat → AttemptEnv) (a f : Nat) (hdr : Option (Option ℚ))
    (body : List Nat) (msg : String)
    (henv : env a = .response 200 hdr body (some msg)) :
    downloadLoop mr bd url sp fn env a (f + 1)
      = (preEvents bd url a ++ [.log (.fileErrMsg msg)], .fileFail msg) := by
  rw [downloadLoop, henv]
  simp

theorem C6_io_error_immediate_failure_witness :
    downloadLoop 3 1 "u" "p" "f"
        (fun _ => AttemptEnv.response 200 none [1] (some "disk full")) 0 (3 + 1)
      = (preEvents 1 "u" 0 ++ [.log (.fileErrMsg "disk full")],
         .fileFail "disk full") :=
  C6_io_error_immediate_failure 3 1 "u" "p" "f"
    (fun _ => AttemptEnv.response 200 none [1] (some "disk full")) 0 3 none [1]
    "disk full" rfl

/-- C7 counterexample: for an input entry whose filename is `None`, the run
does complete and counts the entry as failed, but no logged no-op outcome is
recorded for it: `Path(save_dir) / None` raises `TypeError` before the
`try` block, so the entry's event trace is empty (no `print` at all) and its
gather result is the captured exception — contradicting "recording a logged
no-op outcome for it". -/
theorem C7_no_logged_noop_counterexample :
    (download_all_files [(none, 0)] "d"
        (fun _ _ => AttemptEnv.timeout)).perTaskEvents = [[]] ∧
    (download_all_files [(none, 0)] "d"
        (fun _ _ => AttemptEnv.timeout)).results = [none] ∧
    (download_all_files [(none, 0)] "d"
        (fun _ _ => AttemptEnv.timeout)).failed = 1 ∧
    ¬ ∃ e ∈ ([] : List Event), isLog e = true := by
  decide

/-- C7 (amended): an input entry with a `None` filename makes its task raise
`TypeError` before the retry loop; `asyncio.gather(return_exceptions=True)`
captures the exception, so the run still completes with one result per input
entry and the entry counted as failed (its result is the exception, not
`True`) — but nothing is logged for it and no download activity occurs:
its event trace is empty. -/
theorem C7_null_resource_captured (urls : List (Option String × ℤ))
    (dir : String) (env : Nat → Nat → AttemptEnv) (i : Nat) (d : ℤ)
    (h : urls[i]? = some (none, d)) :
    (download_all_files urls dir env).results.length = urls.length ∧
    (download_all_files urls dir env).results[i]? = some none ∧
    (download_all_files urls dir env).perTaskEvents[i]? = some [] := by
  unfold download_all_files
  refine ⟨by simp [List.enum_length], ?_, ?_⟩
  · simp only [List.getElem?_map, List.getElem?_enum, h]
    rfl
  · simp only [List.getElem?_map, List.getElem?_enum, h]
    rfl

theorem C7_null_resource_captured_witness :
    (download_all_files [((none : Option String), (5 : ℤ))] "dest"
        (fun _ _ => AttemptEnv.timeout)).results.length
      = ([((none : Option String), (5 : ℤ))]).length ∧
    (download_all_files [((none : Option String), (5 : ℤ))] "dest"
        (fun _ _ => AttemptEnv.timeout)).results[0]? = some none ∧
    (download_all_files [((none : Option String), (5 : ℤ))] "dest"
        (fun _ _ => AttemptEnv.timeout)).perTaskEvents[0]? = some [] :=
  C7_null_resource_captured [((none : Option String), (5 : ℤ))] "dest"
    (fun _ _ => AttemptEnv.timeout) 0 5 rfl

/-- C8: in every reachable state of a run, at most 2 requests
(`asyncio.Semaphore(2)`) are simultaneously past the pacing delay and before
outcome resolution, and at most 3 connections
(`aiohttp.TCPConnector(limit=3)`) are open to the remote host — in fact the
semaphore already caps open connections at 2, below the connector's limit. -/
theorem C8_concurrency_bounds (n : Nat) (s : Fin n → Phase)
    (h : engineReachable n s) :
    phaseCount n isActive s ≤ 2 ∧ phaseCount n hasConn s ≤ 3 := by
  have hsem := engineReachable_semCount h
  have h1 : phaseCount n isActive s ≤ phaseCount n holdsSem s :=
    phaseCount_mono n isActive holdsSem
      (by intro x; cases x <;> simp [isActive, holdsSem]) s
  have h2 : phaseCount n hasConn s ≤ phaseCount n isActive s :=
    phaseCount_mono n hasConn isActive
      (by intro x; cases x <;> simp [hasConn, isActive]) s
  omega

theorem C8_concurrency_bounds_witness :
    engineReachable 3 (fun _ => Phase.notStarted) ∧
    phaseCount 3 isActive (fun _ => Phase.notStarted) ≤ 2 ∧
    phaseCount 3 hasConn (fun _ => Phase.notStarted) ≤ 3 :=
  ⟨Relation.ReflTransGen.refl,
   (C8_concurrency_bounds 3 _ Relation.ReflTransGen.refl).1,
   (C8_concurrency_bounds 3 _ Relation.ReflTransGen.refl).2⟩

/-- C9: a request whose first attempt returns HTTP 200 produces Success with
exactly one file write, writing the full response body to
`destinationDir/resourceId`, and sleeps only the initial 0.1 s pacing delay
(no retry delays). -/
theorem C9_first_attempt_success_trace (fn dir : String)
    (env : Nat → AttemptEnv) (hdr : Option (Option ℚ)) (body : List Nat)
    (henv : env 0 = .response 200 hdr body none) :
    download_file_async (some fn) dir env
      = ([.sleep pacingDelay, .httpGet (BASE_URL ++ fn),
          .fileWrite (dir ++ "/" ++ fn) body, .log (.successMsg fn)],
         .success) := by
  rw [download_file_async]
  rw [downloadLoop, henv]
  simp [preEvents]

theorem C9_first_attempt_success_trace_witness :
    download_file_async (some "a.csv") "dd"
        (fun _ => AttemptEnv.response 200 none [9] none)
      = ([.sleep pacingDelay, .httpGet (BASE_URL ++ "a.csv"),
          .fileWrite ("dd" ++ "/" ++ "a.csv") [9], .log (.successMsg "a.csv")],
         .success) :=
  C9_first_attempt_success_trace "a.csv" "dd"
    (fun _ => AttemptEnv.response 200 none [9] none) none [9] rfl

/-- C10: for `start_date ≤ end_date`, `generate_all_filenames` returns
exactly `(end_date - start_date).days + 1` entries, whose dates are the
consecutive calendar days `start_date, start_date + 1, …, end_date` (one per
day, strictly ascending); for `start_date > end_date` it returns the empty
list. -/
theorem C10_generate_all_filenames_days (c : Option String) (r m : String)
    (s e : ℤ) :
    (s ≤ e →
      (generate_all_filenames c r m s e).length = (e - s).toNat + 1 ∧
      (generate_all_filenames c r m s e).map Prod.snd
        = (List.range ((e - s).toNat + 1)).map (fun (k : ℕ) => s + (k : ℤ)) ∧
      List.Chain' (fun p q => p.2 < q.2) (generate_all_filenames c r m s e)) ∧
    (e < s → generate_all_filenames c r m s e = []) := by
  have base := gaf_aux c r m e ((e + 1 - s).toNat) s rfl
  constructor
  · intro hse
    have hn : (e + 1 - s).toNat = (e - s).toNat + 1 := by omega
    rw [base, hn]
    refine ⟨by simp, by simp [List.map_map, Function.comp], ?_⟩
    rw [List.chain'_map]
    rw [List.chain'_range_succ]
    intro i hi
    simp
  · intro hes
    have hn : (e + 1 - s).toNat = 0 := by omega
    rw [base, hn]
    simp

theorem C10_generate_all_filenames_days_witness :
    (generate_all_filenames (some "uk") "h" "w" 0 2).length
      = ((2 : ℤ) - 0).toNat + 1 ∧
    generate_all_filenames (some "uk") "h" "w" 3 2 = [] :=
  ⟨((C10_generate_all_filenames_days (some "uk") "h" "w" 0 2).1
      (by norm_num)).1,
   (C10_generate_all_filenames_days (some "uk") "h" "w" 3 2).2 (by norm_num)⟩
